import Mathlib

/-!
Shallow embedding of the bring_down_scotland capacity pipeline
(`src/sse_analyzer.py`, `src/app.py`, `src/test.py`, `src/test3.py`).

Records returned by the remote datastore are flat JSON mappings from field
name to a dynamically typed value (string, number or null); a DataFrame is
modelled as a list of such records.  Numeric values are modelled as exact
rationals (the Python side works with floats, but every value exercised by
the tracked properties is decimal and exactly representable).
-/

/-- Dynamically typed cell value of a record, as decoded from the API JSON. -/
inductive Value where
  | str (s : String)
  | num (q : Rat)
  | null
deriving DecidableEq, Repr

/-- RawRecord: a flat mapping field-name → value (association list). -/
def Record : Type := List (String × Value)

instance : DecidableEq Record := by unfold Record; exact inferInstance

/-- Rendering of a cell as pandas `astype(str)` does for the values we model:
a string stays itself, a JSON null (Python `None`) renders as "None", a
missing cell (`NaN`) renders as "nan".  Numeric rendering uses the `Rat`
printer; no tracked property reads a numeric location field as text. -/
def valueToStr : Option Value → String
  | none => "nan"
  | some (.str s) => s
  | some (.num q) => toString q
  | some .null => "None"

/-- Text content of column `f` at record `r`, i.e. `df[f].astype(str)` for the
row `r` (missing cell renders as "nan"). -/
def cellStr (r : Record) (f : String) : String :=
  valueToStr (List.lookup f r)

/-- Keys of one record. -/
def keys (r : Record) : List String := r.map Prod.fst

/-- Columns of the DataFrame built from a list of records: every key of every
record.  (pandas keeps each name once, in first-seen order; only membership
in the column set is ever consulted, for which duplicates are irrelevant.) -/
def columns (df : List Record) : List String := df.flatMap keys

/-! ## Numeric coercion (`pd.to_numeric(..., errors='coerce')`) -/

/-- Digit run to a natural number. -/
def digitsToNat (cs : List Char) : Nat :=
  cs.foldl (fun acc c => 10 * acc + (c.toNat - '0'.toNat)) 0

/-- Decimal string parser modelling the string-to-number step of
`pd.to_numeric(..., errors='coerce')`: optional sign, a digit run, optionally
a point and a second digit run, at least one digit overall, nothing else.
In particular an embedded thousands-separator comma makes the parse fail
(pandas coerces such a string to NaN).  Exponent forms and special spellings
are not exercised by any tracked property and are omitted. -/
def parseDecimal (s : String) : Option Rat :=
  let cs := s.data
  let sign : Int := if cs.head? = some '-' then -1 else 1
  let rest := if cs.head? = some '-' ∨ cs.head? = some '+' then cs.tail else cs
  let intPart := rest.takeWhile Char.isDigit
  let afterInt := rest.dropWhile Char.isDigit
  if afterInt = [] then
    if intPart = [] then none
    else some (mkRat (sign * (digitsToNat intPart : Int)) 1)
  else if afterInt.head? = some '.' then
    let fracPart := afterInt.tail.takeWhile Char.isDigit
    if afterInt.tail.dropWhile Char.isDigit = [] ∧ (intPart = [] → fracPart ≠ []) then
      some (mkRat (sign * ((digitsToNat intPart : Int) * (10 : Int) ^ fracPart.length
                            + (digitsToNat fracPart : Int)))
                  ((10 : Nat) ^ fracPart.length))
    else none
  else none

/-- Coercion of one cell by `pd.to_numeric(df[field], errors='coerce')`:
numbers pass through, strings are parsed, null and missing cells give NaN
(modelled as `none`). -/
def pd_to_numeric : Option Value → Option Rat
  | some (.num q) => some q
  | some (.str s) => parseDecimal s
  | some .null => none
  | none => none

/-- Comma removal, `series.astype(str).str.replace(',', '')` from test.py. -/
def strip_commas (s : String) : String :=
  String.mk (s.data.filter (fun c => c ≠ ','))

/-- Coercion used by test.py's column summation: render as string, strip
commas, then `pd.to_numeric(..., errors='coerce')`. -/
def test_py_to_numeric (v : Option Value) : Option Rat :=
  parseDecimal (strip_commas (valueToStr v))

/-- test.py's `total_sum = scotland_data[col].sum()` after its coercion:
sum of the column ignoring NaN. -/
def test_py_column_sum (col : List (Option Value)) : Rat :=
  (col.filterMap test_py_to_numeric).sum

/-! ## Region classifier (`filter_scotland_data`, src/sse_analyzer.py) -/

/-- Scottish free-text indicators of src/sse_analyzer.py. -/
def scottish_indicators : List String :=
  ["Scotland", "SCOTLAND", "scotland",
   "Glasgow", "Edinburgh", "Aberdeen", "Dundee", "Inverness"]

/-- Scottish postcode areas of src/sse_analyzer.py. -/
def scottish_postcodes : List String :=
  ["G", "EH", "AB", "DD", "IV", "KY", "FK"]

/-- Location fields scanned by src/sse_analyzer.py. -/
def location_fields : List String :=
  ["Country", "County", "town__city", "Postcode"]

/-- List-of-chars begins with the given pattern. -/
def leadsWith : List Char → List Char → Bool
  | [], _ => true
  | _ :: _, [] => false
  | c :: cs, d :: ds => c = d && leadsWith cs ds

/-- Case-insensitive substring containment, the effect of
`str.contains(pattern, case=False)` for a literal pattern. -/
def containsCI (hay needle : String) : Bool :=
  let h := hay.data.map Char.toLower
  let n := needle.data.map Char.toLower
  (List.range (h.length + 1)).any (fun i => leadsWith n (h.drop i))

/-- Does any Scottish indicator occur (case-insensitively) in the string?
This is `str.contains('|'.join(scottish_indicators), case=False)`: the
indicators contain no regex metacharacters, so the regex alternation matches
iff some indicator is a substring. -/
def indicatorHit (s : String) : Bool :=
  scottish_indicators.any (fun ind => containsCI s ind)

/-- Leading run of uppercase A-Z characters, the capture of
`str.extract(r'^([A-Z]+)')` (empty when the regex does not match, in which
case the subsequent `isin` test is False). -/
def azRun : List Char → List Char
  | [] => []
  | c :: cs => if 'A' ≤ c ∧ c ≤ 'Z' then c :: azRun cs else []

/-- Leading alphabetic run (either case) of a string — the "leading
alphabetic run" in the words of the specification, used for comparison with
the code's uppercase-only extraction. -/
def alphaRun : List Char → List Char
  | [] => []
  | c :: cs => if c.isAlpha then c :: alphaRun cs else []

/-- Postcode-area test of the classifier: extract the leading uppercase run
of the record's Postcode cell and test membership in `scottish_postcodes`
(an empty run yields "", which is not in the list, i.e. `isin` on NaN). -/
def postcodeHit (r : Record) : Bool :=
  scottish_postcodes.contains (String.mk (azRun (cellStr r "Postcode").data))

/-- Row of the boolean `scotland_mask` of `filter_scotland_data`: OR over the
location fields present among the DataFrame columns of the indicator test,
OR the postcode-area test when the Postcode column exists. -/
def rowMask (cols : List String) (r : Record) : Bool :=
  (location_fields.any (fun f => cols.contains f && indicatorHit (cellStr r f)))
  || (cols.contains "Postcode" && postcodeHit r)

/-- `filter_scotland_data` of src/sse_analyzer.py: an empty DataFrame is
returned unchanged, otherwise the rows where `scotland_mask` holds. -/
def filter_scotland_data (df : List Record) : List Record :=
  if df = [] then df else df.filter (rowMask (columns df))

/-- In-region predicate in the specification's words: some region indicator
is a case-insensitive substring of some tracked location field, OR the
leading alphabetic run of the postcode is one of the fixed prefixes; a
missing field reads as the non-matching "nan". -/
def inRegionSpec (r : Record) : Bool :=
  (location_fields.any (fun f => indicatorHit (cellStr r f)))
  || scottish_postcodes.contains (String.mk (alphaRun (cellStr r "Postcode").data))

/-- Per-record classification actually computed by the code, with the
uppercase-only postcode run (the mask bit once the column checks are
discharged). -/
def inRegionCode (r : Record) : Bool :=
  (location_fields.any (fun f => indicatorHit (cellStr r f))) || postcodeHit r

/-! ## Capacity aggregator (`calculate_capacity_totals`, src/sse_analyzer.py) -/

/-- Per-category statistics dictionary.  `min_mw`/`max_mw` are `Option`
because the code's absent-column branch builds the dictionary WITHOUT those
two keys; `none` models the absent key. -/
structure CapacityStat where
  total_mw : Rat
  count_records : Nat
  average_mw : Rat
  min_mw : Option Rat
  max_mw : Option Rat
deriving DecidableEq, Repr

/-- Minimum of a list of rationals (`series.min()` on a nonempty series). -/
def minList : List Rat → Rat
  | [] => 0
  | x :: xs => xs.foldl min x

/-- Maximum of a list of rationals (`series.max()` on a nonempty series). -/
def maxList : List Rat → Rat
  | [] => 0
  | x :: xs => xs.foldl max x

/-- Tracked capacity categories and their source fields
(src/sse_analyzer.py). -/
def capacity_fields : List (String × String) :=
  [("accepted_registered_capacity", "accepted_to_connect_registered_capacity__mw_"),
   ("connected_registered_capacity", "already_connected_registered_capacity__mw_"),
   ("maximum_export_capacity", "maximum_export_capacity__mw_"),
   ("maximum_import_capacity", "maximum_import_capacity__mw_")]

/-- Valid values of one column: coerce each cell with
`pd.to_numeric(..., errors='coerce')` and drop the NaN results
(`capacity_series.dropna()`). -/
def validCapacities (df : List Record) (field_id : String) : List Rat :=
  df.filterMap (fun r => pd_to_numeric (List.lookup field_id r))

/-- Statistics for one present column: sum/count/average over the valid
values (average 0 when no valid value) and min/max (0 when no valid
value). -/
def aggregate_field (df : List Record) (field_id : String) : CapacityStat :=
  { total_mw := (validCapacities df field_id).sum
  , count_records := (validCapacities df field_id).length
  , average_mw :=
      if 0 < (validCapacities df field_id).length then
        (validCapacities df field_id).sum / ((validCapacities df field_id).length : Rat)
      else 0
  , min_mw := some (if 0 < (validCapacities df field_id).length
                    then minList (validCapacities df field_id) else 0)
  , max_mw := some (if 0 < (validCapacities df field_id).length
                    then maxList (validCapacities df field_id) else 0) }

/-- Zero statistics of the absent-column branch: only the three keys
`total_mw`, `count_records`, `average_mw` are written. -/
def zeroStat : CapacityStat :=
  { total_mw := 0, count_records := 0, average_mw := 0, min_mw := none, max_mw := none }

/-- `calculate_capacity_totals` of src/sse_analyzer.py. -/
def calculate_capacity_totals (df : List Record) : List (String × CapacityStat) :=
  capacity_fields.map (fun p =>
    (p.1, if (columns df).contains p.2 then aggregate_field df p.2 else zeroStat))

/-! ## Summary builder and cache (`get_capacity_data`, src/app.py) -/

/-- Flat `summary` sub-dictionary built by src/app.py. -/
structure CacheSummary where
  accepted_capacity : Rat
  connected_capacity : Rat
  max_export_capacity : Rat
  max_import_capacity : Rat
  grand_total : Rat
deriving DecidableEq, Repr

/-- `capacity_data` dictionary of src/app.py (the timestamp string is not
modelled: no tracked property constrains it). -/
structure CacheData where
  totals : List (String × CapacityStat)
  records_count : Nat
  summary : CacheSummary
deriving DecidableEq, Repr

/-- `totals.get(cat, {}).get('total_mw', 0)` of src/app.py. -/
def getTotal (totals : List (String × CapacityStat)) (cat : String) : Rat :=
  match List.lookup cat totals with
  | some s => s.total_mw
  | none => 0

/-- `sum(totals[cap]['total_mw'] for cap in totals)` of src/app.py line 47. -/
def grand_total_of (totals : List (String × CapacityStat)) : Rat :=
  (totals.map (fun p => p.2.total_mw)).sum

/-- Construction of `capacity_data` from the post-fallback Scotland frame
(src/app.py lines 36-49). -/
def build_cache_data (scotland_df : List Record) : CacheData :=
  let totals := calculate_capacity_totals scotland_df
  { totals := totals
  , records_count := scotland_df.length
  , summary :=
    { accepted_capacity := getTotal totals "accepted_registered_capacity"
    , connected_capacity := getTotal totals "connected_registered_capacity"
    , max_export_capacity := getTotal totals "maximum_export_capacity"
    , max_import_capacity := getTotal totals "maximum_import_capacity"
    , grand_total := grand_total_of totals } }

/-- Python exceptions relevant to the embedded paths. -/
inductive PyError where
  | fileNotFound
  | jsonDecodeError
  | zeroDivisionError
deriving DecidableEq, Repr

/-- State of the `data_cache.json` snapshot file. -/
inductive SnapshotFile where
  | missing
  | corrupt
  | valid (d : CacheData)

/-- Effect of `open('data_cache.json') ; json.load(f)`: a missing file raises
FileNotFoundError, an unparseable file raises JSONDecodeError, a valid file
yields its round-tripped CacheData. -/
def read_cache_file : SnapshotFile → Except PyError CacheData
  | .missing => .error .fileNotFound
  | .corrupt => .error .jsonDecodeError
  | .valid d => .ok d

/-- Synthesized all-zero `capacity_data` of src/app.py lines 64-75. -/
def zero_cache_data : CacheData :=
  { totals := []
  , records_count := 0
  , summary :=
    { accepted_capacity := 0, connected_capacity := 0
    , max_export_capacity := 0, max_import_capacity := 0, grand_total := 0 } }

/-- `get_capacity_data` of src/app.py on a cold cache (or forced refresh),
as a function of the fetched frame and the snapshot-file state: a nonempty
fetch is filtered (falling back to the whole frame when the filter empties
it) and aggregated; an empty fetch loads the snapshot, synthesizing the
all-zero data only on FileNotFoundError — any other exception propagates. -/
def get_capacity_data (df : List Record) (file : SnapshotFile) :
    Except PyError CacheData :=
  if df = [] then
    match read_cache_file file with
    | .ok d => .ok d
    | .error .fileNotFound => .ok zero_cache_data
    | .error e => .error e
  else
    let scotland_df := filter_scotland_data df
    let scotland_df := if scotland_df = [] then df else scotland_df
    .ok (build_cache_data scotland_df)

/-! ## Blackout calculator (`calculate_blackout`, src/app.py) -/

/-- Python division, raising ZeroDivisionError on a zero denominator. -/
def pydiv (a b : Rat) : Except PyError Rat :=
  if b = 0 then .error .zeroDivisionError else .ok (a / b)

/-- Response body of `/api/game/calculate`. -/
structure BlackoutResult where
  kettle_count : Rat
  available_capacity : Rat
  kettle_power_mw : Rat
  remaining_capacity : Rat
  blackout_percentage : Rat
  status : String
  message : String
  kettles_to_blackout : Int
deriving DecidableEq, Repr

/-- `calculate_blackout` of src/app.py lines 148-188, with every runtime
division routed through `pydiv`. -/
def calculate_blackout (kettle_count : Rat) (game_data : CacheData) :
    Except PyError BlackoutResult := do
  let available_capacity := game_data.summary.connected_capacity
  let kettle_power : Rat := 3
  let total_kettle_power ← pydiv (kettle_count * kettle_power) 1000
  let remaining_capacity := available_capacity - total_kettle_power
  let ratio ← pydiv total_kettle_power available_capacity
  let blackout_percentage := min 100 (max 0 (ratio * 100))
  let sm : String × String :=
    if remaining_capacity ≤ 0 then
      ("blackout", "🏴󠁧󠁢󠁳󠁣󠁴󠁿 BLACKOUT! Scotland's grid has collapsed!")
    else if blackout_percentage > 90 then
      ("critical", "🔴 CRITICAL! Grid stability at risk!")
    else if blackout_percentage > 70 then
      ("warning", "🟡 WARNING! Grid under heavy strain!")
    else
      ("normal", "🟢 Grid operating normally")
  let perKettle ← pydiv (available_capacity * 1000) kettle_power
  let result : BlackoutResult :=
    { kettle_count := kettle_count
    , available_capacity := available_capacity
    , kettle_power_mw := total_kettle_power
    , remaining_capacity := max 0 remaining_capacity
    , blackout_percentage := blackout_percentage
    , status := sm.1
    , message := sm.2
    , kettles_to_blackout := Rat.ceil perKettle }
  pure result

/-! ## Record fetcher (`fetch_scotland_data`, src/sse_analyzer.py, and
`fetch_all_data`, src/test3.py) -/

/-- Outcome of one remote query as observed by the fetch loop:
`err` — `requests.get`/`.json()`/indexing raised (caught by the `except`);
`fail` — the response parsed but its `success` flag was falsy;
`success recs` — `success` was truthy with the given record list. -/
inductive QueryOutcome where
  | err
  | fail
  | success (recs : List Record)

/-- Records a query contributes to the working set: nothing on an exception
or a falsy success flag, and nothing on a truthy flag with an empty list
(the guard `data.get('success') and data['result']['records']` is falsy for
an empty list). -/
def outcomeRecords : QueryOutcome → List Record
  | .err => []
  | .fail => []
  | .success recs => if recs = [] then [] else recs

/-- Per-term merge of src/sse_analyzer.py lines 59-61: append each incoming
record not already present (full structural equality). -/
def mergeNew (acc : List Record) (recs : List Record) : List Record :=
  recs.foldl (fun a r => if r ∈ a then a else a ++ [r]) acc

/-- Scottish search terms of src/sse_analyzer.py. -/
def scottish_terms : List String :=
  ["Scotland", "Glasgow", "Edinburgh", "Aberdeen"]

/-- Working set built by `fetch_scotland_data` of src/sse_analyzer.py, as a
function of the general-sample outcome and the per-term outcomes (one per
search term, in order): the general records are extended in wholesale, then
each term's records are merged with the duplicate check. -/
def fetch_scotland_data (general : QueryOutcome) (termOuts : List QueryOutcome) :
    List Record :=
  termOuts.foldl (fun acc o => mergeNew acc (outcomeRecords o)) (outcomeRecords general)

/-- Arguments of one `requests.get` call: url, query parameters (stringified)
and the `timeout` keyword — `none` when the call passes no timeout, in which
case the requests library waits indefinitely. -/
structure RequestCall where
  url : String
  params : List (String × String)
  timeout : Option Nat
deriving DecidableEq, Repr

/-- Endpoint of src/sse_analyzer.py. -/
def base_url : String :=
  "https://ckan-prod.sse.datopian.com/api/3/action/datastore_search"

/-- Resource identifier of src/sse_analyzer.py. -/
def resource_id : String := "d258bd7b-22db-4d32-9450-b3783591b66d"

/-- The general-sample request of src/sse_analyzer.py lines 26-32: no
`timeout` keyword is passed. -/
def general_request (limit : Nat) : RequestCall :=
  { url := base_url
  , params := [("resource_id", resource_id), ("limit", toString (min limit 1000))]
  , timeout := none }

/-- One per-term search request of src/sse_analyzer.py lines 47-53: no
`timeout` keyword is passed. -/
def term_request (term : String) : RequestCall :=
  { url := base_url
  , params := [("resource_id", resource_id), ("q", term), ("limit", "500")]
  , timeout := none }

/-- Every request a `fetch_scotland_data` cycle issues, in order. -/
def fetch_requests (limit : Nat) : List RequestCall :=
  general_request limit :: scottish_terms.map term_request

/-- Batch size of `fetch_all_data` of src/test3.py. -/
def batch_size : Nat := 1000

/-- One offset-paged request of `fetch_all_data` of src/test3.py: no
`timeout` keyword is passed. -/
def paged_request (offset : Nat) : RequestCall :=
  { url := base_url
  , params := [("resource_id", resource_id), ("limit", toString batch_size),
               ("offset", toString offset)]
  , timeout := none }

/-- Pagination loop of `fetch_all_data` of src/test3.py, over an abstract
server (outcome per offset).  Returns the accumulated records and the number
of round-trips performed.  The loop stops when the accumulated count reaches
`limit`, on an exception, on a falsy success flag or empty batch, or after
absorbing a batch shorter than `batch_size`. -/
def fetch_all_loop (server : Nat → QueryOutcome) (limit : Nat)
    (acc : List Record) (offset : Nat) (trips : Nat) : List Record × Nat :=
  if _hlim : acc.length < limit then
    match server offset with
    | .err => (acc, trips + 1)
    | .fail => (acc, trips + 1)
    | .success recs =>
      if recs = [] then (acc, trips + 1)
      else if hshort : recs.length < batch_size then (acc ++ recs, trips + 1)
      else fetch_all_loop server limit (acc ++ recs) (offset + batch_size) (trips + 1)
  else (acc, trips)
termination_by limit - acc.length
decreasing_by
  simp only [List.length_append]
  have hb : batch_size ≤ recs.length := Nat.le_of_not_lt hshort
  have : (1 : Nat) ≤ recs.length := le_trans (by decide) hb
  omega

/-- `fetch_all_data` of src/test3.py. -/
def fetch_all_data (server : Nat → QueryOutcome) (limit : Nat) :
    List Record × Nat :=
  fetch_all_loop server limit [] 0 0

/-! ## Lemmas about the classifier -/

theorem lookup_eq_none_of_not_mem_keys (r : Record) (f : String)
    (h : f ∉ keys r) : List.lookup f r = none := by
  induction r with
  | nil => rfl
  | cons kv rest ih =>
    simp only [keys, List.map_cons, List.mem_cons, not_or] at h
    have hbeq : (f == kv.1) = false := beq_eq_false_iff_ne.mpr h.1
    simp only [List.lookup, hbeq]
    exact ih (by simpa [keys] using h.2)

theorem cellStr_of_not_mem_columns (df : List Record) (r : Record) (f : String)
    (hr : r ∈ df) (hf : f ∉ columns df) : cellStr r f = "nan" := by
  have hkr : f ∉ keys r := by
    intro hk
    exact hf (by simpa [columns, List.mem_flatMap] using ⟨r, hr, hk⟩)
  simp [cellStr, lookup_eq_none_of_not_mem_keys r f hkr, valueToStr]

theorem indicatorHit_nan : indicatorHit "nan" = false := by decide

theorem postcodeHit_of_nan (r : Record) (h : cellStr r "Postcode" = "nan") :
    postcodeHit r = false := by
  unfold postcodeHit
  rw [h]
  decide

theorem rowMask_eq_inRegionCode (df : List Record) (r : Record) (hr : r ∈ df) :
    rowMask (columns df) r = inRegionCode r := by
  have key : ∀ f, ((columns df).contains f && indicatorHit (cellStr r f))
      = indicatorHit (cellStr r f) := by
    intro f
    cases hcf : (columns df).contains f with
    | false =>
      have hnm : f ∉ columns df := by simpa using hcf
      rw [cellStr_of_not_mem_columns df r f hr hnm, indicatorHit_nan]
      simp
    | true => simp
  have keyP : ((columns df).contains "Postcode" && postcodeHit r) = postcodeHit r := by
    cases hcf : (columns df).contains "Postcode" with
    | false =>
      have hnm : "Postcode" ∉ columns df := by simpa using hcf
      rw [postcodeHit_of_nan r (cellStr_of_not_mem_columns df r "Postcode" hr hnm)]
      simp
    | true => simp
  unfold rowMask inRegionCode
  rw [keyP]
  congr 1
  simp only [location_fields, List.any_cons, List.any_nil]
  rw [key "Country", key "County", key "town__city", key "Postcode"]

/-- C4 counterexample: the record with postcode "Gz1 1AA" is kept by
`filter_scotland_data` (the code extracts the leading UPPERCASE run "G",
which is a Scottish area), although its leading alphabetic run "Gz" is not
in the prefix list and no text field holds an indicator, so the claimed
characterisation classifies it out-of-region. -/
theorem C4_counterexample :
    filter_scotland_data [[("Postcode", Value.str "Gz1 1AA")]]
      = [[("Postcode", Value.str "Gz1 1AA")]]
  ∧ inRegionSpec [("Postcode", Value.str "Gz1 1AA")] = false := by
  constructor
  · decide
  · decide

/-- C4 (amended): a record is kept by `filter_scotland_data` iff it is in the
input and some Scottish indicator occurs case-insensitively in one of the
four tracked location fields OR the leading UPPERCASE-alphabetic run of its
postcode is one of the fixed area codes; missing fields read as the
non-matching "nan".  In particular the record with postcode "EH3 8DF" and no
text indicators is kept, and the record with county "Yorkshire" and postcode
"LS1" is not. -/
theorem C4_classifier_characterisation :
    (∀ (df : List Record) (r : Record),
      r ∈ filter_scotland_data df ↔ r ∈ df ∧ inRegionCode r = true)
  ∧ filter_scotland_data [[("Postcode", Value.str "EH3 8DF")]]
      = [[("Postcode", Value.str "EH3 8DF")]]
  ∧ filter_scotland_data [[("County", Value.str "Yorkshire"), ("Postcode", Value.str "LS1")]]
      = [] := by
  refine ⟨fun df r => ?_, by decide, by decide⟩
  unfold filter_scotland_data
  by_cases hdf : df = []
  · simp [hdf]
  · rw [if_neg hdf, List.mem_filter]
    constructor
    · rintro ⟨hmem, hmask⟩
      exact ⟨hmem, by rw [← rowMask_eq_inRegionCode df r hmem]; exact hmask⟩
    · rintro ⟨hmem, hcode⟩
      exact ⟨hmem, by rw [rowMask_eq_inRegionCode df r hmem]; exact hcode⟩

/-- C1 counterexample: a record whose capacity field holds "1,234.5" is NOT
included by the aggregator `calculate_capacity_totals` — `pd.to_numeric`
rejects the thousands-separator, so the category's count and total stay 0,
where the claim predicts count 1 and total 1234.5. -/
theorem C1_counterexample :
    List.lookup "accepted_registered_capacity"
      (calculate_capacity_totals
        [[("accepted_to_connect_registered_capacity__mw_", Value.str "1,234.5")]])
    = some { total_mw := 0, count_records := 0, average_mw := 0
           , min_mw := some 0, max_mw := some 0 } := by
  decide

/-- C1 (amended): in the pipeline aggregator `calculate_capacity_totals` a
thousands-separator value "1,234.5" FAILS coercion and is silently excluded
from count and total exactly like "N/A" (valid values in the same column are
still aggregated, with no error); only test.py's standalone column summation
strips commas before coercing, so there "1,234.5" coerces to 1234.5 and is
included while "N/A" is still excluded. -/
theorem C1_coercion :
    List.lookup "accepted_registered_capacity"
      (calculate_capacity_totals
        [[("accepted_to_connect_registered_capacity__mw_", Value.str "1,234.5")],
         [("accepted_to_connect_registered_capacity__mw_", Value.str "N/A")],
         [("accepted_to_connect_registered_capacity__mw_", Value.str "10")]])
      = some { total_mw := 10, count_records := 1, average_mw := 10
             , min_mw := some 10, max_mw := some 10 }
  ∧ pd_to_numeric (some (Value.str "1,234.5")) = none
  ∧ pd_to_numeric (some (Value.str "N/A")) = none
  ∧ test_py_to_numeric (some (Value.str "1,234.5")) = some (1234.5 : Rat)
  ∧ test_py_to_numeric (some (Value.str "N/A")) = none
  ∧ test_py_column_sum [some (Value.str "1,234.5"), some (Value.str "N/A")]
      = (1234.5 : Rat) := by
  have h1234 : (1234.5 : Rat) = mkRat 2469 2 := by
    norm_num [mkRat, Rat.normalize]
  have hv : validCapacities
      [[("accepted_to_connect_registered_capacity__mw_", Value.str "1,234.5")],
       [("accepted_to_connect_registered_capacity__mw_", Value.str "N/A")],
       [("accepted_to_connect_registered_capacity__mw_", Value.str "10")]]
      "accepted_to_connect_registered_capacity__mw_" = [10] := by decide
  refine ⟨?_, by decide, by decide, ?_, by decide, ?_⟩
  · have hcols : (columns
      [[("accepted_to_connect_registered_capacity__mw_", Value.str "1,234.5")],
       [("accepted_to_connect_registered_capacity__mw_", Value.str "N/A")],
       [("accepted_to_connect_registered_capacity__mw_", Value.str "10")]]).contains
        "accepted_to_connect_registered_capacity__mw_" = true := by decide
    simp only [calculate_capacity_totals, capacity_fields, List.map_cons, List.map_nil,
      hcols, if_true, aggregate_field, hv, List.lookup]
    norm_num [minList, maxList]
  · rw [h1234]
    decide
  · have hfm : List.filterMap test_py_to_numeric
        [some (Value.str "1,234.5"), some (Value.str "N/A")] = [mkRat 2469 2] := by decide
    unfold test_py_column_sum
    rw [hfm, h1234]
    simp

/-- C2: on an empty fetch, `get_capacity_data` synthesizes the all-zero
summary (grand total 0, record count 0) when the snapshot file is missing,
loads a valid snapshot verbatim, and lets a parse error propagate — missing
is distinguished from corrupt. -/
theorem C2_fallback :
    get_capacity_data [] .missing = .ok zero_cache_data
  ∧ zero_cache_data.summary.grand_total = 0
  ∧ zero_cache_data.records_count = 0
  ∧ get_capacity_data [] .corrupt = .error .jsonDecodeError
  ∧ (∀ d, get_capacity_data [] (.valid d) = .ok d) := by
  exact ⟨rfl, rfl, rfl, rfl, fun d => rfl⟩

/-- C5 counterexample: when the source field of a category is absent from
the data, `calculate_capacity_totals` writes only the three keys total,
count and average — the stat dictionary does NOT carry the min and max
fields the claim requires (`none` models the absent dictionary key). -/
theorem C5_counterexample :
    List.lookup "accepted_registered_capacity"
      (calculate_capacity_totals [[("foo", Value.num 1)]]) = some zeroStat
  ∧ zeroStat.min_mw = none
  ∧ zeroStat.max_mw = none := by
  exact ⟨by decide, rfl, rfl⟩

/-- C5 (amended): a tracked category whose source field is absent from the
data yields, without error, the zero-valued stat {total 0, count 0,
average 0} — with the min and max keys omitted (present only when the source
field exists in the data). -/
theorem C5_absent_field (df : List Record) (cat fid : String)
    (hmem : (cat, fid) ∈ capacity_fields)
    (habs : (columns df).contains fid = false) :
    (cat, zeroStat) ∈ calculate_capacity_totals df := by
  unfold calculate_capacity_totals
  refine List.mem_map.mpr ⟨(cat, fid), hmem, ?_⟩
  have hnm : fid ∉ columns df := by simpa using habs
  simp [hnm]

/-- C5 witness: the accepted-capacity field is absent from a one-record
frame holding only a "foo" field, and the aggregator yields the zero stat
for that category. -/
theorem C5_witness :
    ("accepted_registered_capacity", zeroStat)
      ∈ calculate_capacity_totals [[("foo", Value.num 1)]] :=
  C5_absent_field [[("foo", Value.num 1)]]
    "accepted_registered_capacity" "accepted_to_connect_registered_capacity__mw_"
    (by decide) (by decide)

/-- C6: the summary's grand total is the arithmetic sum of every category's
total (not of averages or counts); on the scenario frame whose accepted
category aggregates to total 100 over 10 records and whose connected
category aggregates to total 50 over 5 records, the grand total is 150 and
both averages are 10 — while the sum of averages is 20 and the sum of counts
is 15. -/
theorem C6_grand_total :
    (∀ totals, grand_total_of totals = (totals.map (fun p => p.2.total_mw)).sum)
  ∧ (List.lookup "accepted_registered_capacity"
      (calculate_capacity_totals
        (List.replicate 10 [("accepted_to_connect_registered_capacity__mw_", Value.num 10)]
          ++ List.replicate 5 [("already_connected_registered_capacity__mw_", Value.num 10)])))
      = some { total_mw := 100, count_records := 10, average_mw := 10
             , min_mw := some 10, max_mw := some 10 }
  ∧ (List.lookup "connected_registered_capacity"
      (calculate_capacity_totals
        (List.replicate 10 [("accepted_to_connect_registered_capacity__mw_", Value.num 10)]
          ++ List.replicate 5 [("already_connected_registered_capacity__mw_", Value.num 10)])))
      = some { total_mw := 50, count_records := 5, average_mw := 10
             , min_mw := some 10, max_mw := some 10 }
  ∧ grand_total_of
      (calculate_capacity_totals
        (List.replicate 10 [("accepted_to_connect_registered_capacity__mw_", Value.num 10)]
          ++ List.replicate 5 [("already_connected_registered_capacity__mw_", Value.num 10)]))
      = 150
  ∧ ((calculate_capacity_totals
        (List.replicate 10 [("accepted_to_connect_registered_capacity__mw_", Value.num 10)]
          ++ List.replicate 5 [("already_connected_registered_capacity__mw_", Value.num 10)])).map
        (fun p => p.2.average_mw)).sum = 20
  ∧ ((calculate_capacity_totals
        (List.replicate 10 [("accepted_to_connect_registered_capacity__mw_", Value.num 10)]
          ++ List.replicate 5 [("already_connected_registered_capacity__mw_", Value.num 10)])).map
        (fun p => (p.2.count_records : Nat))).sum = 15 := by
  have hvA : validCapacities
      (List.replicate 10 [("accepted_to_connect_registered_capacity__mw_", Value.num 10)]
        ++ List.replicate 5 [("already_connected_registered_capacity__mw_", Value.num 10)])
      "accepted_to_connect_registered_capacity__mw_"
      = [10, 10, 10, 10, 10, 10, 10, 10, 10, 10] := by decide
  have hvB : validCapacities
      (List.replicate 10 [("accepted_to_connect_registered_capacity__mw_", Value.num 10)]
        ++ List.replicate 5 [("already_connected_registered_capacity__mw_", Value.num 10)])
      "already_connected_registered_capacity__mw_"
      = [10, 10, 10, 10, 10] := by decide
  have hcA : (columns
      (List.replicate 10 [("accepted_to_connect_registered_capacity__mw_", Value.num 10)]
        ++ List.replicate 5 [("already_connected_registered_capacity__mw_", Value.num 10)])).contains
      "accepted_to_connect_registered_capacity__mw_" = true := by decide
  have hcB : (columns
      (List.replicate 10 [("accepted_to_connect_registered_capacity__mw_", Value.num 10)]
        ++ List.replicate 5 [("already_connected_registered_capacity__mw_", Value.num 10)])).contains
      "already_connected_registered_capacity__mw_" = true := by decide
  have hcC : (columns
      (List.replicate 10 [("accepted_to_connect_registered_capacity__mw_", Value.num 10)]
        ++ List.replicate 5 [("already_connected_registered_capacity__mw_", Value.num 10)])).contains
      "maximum_export_capacity__mw_" = false := by decide
  have hcD : (columns
      (List.replicate 10 [("accepted_to_connect_registered_capacity__mw_", Value.num 10)]
        ++ List.replicate 5 [("already_connected_registered_capacity__mw_", Value.num 10)])).contains
      "maximum_import_capacity__mw_" = false := by decide
  refine ⟨fun totals => rfl, ?_, ?_, ?_, ?_, ?_⟩ <;>
  · simp only [calculate_capacity_totals, capacity_fields, List.map_cons, List.map_nil,
      hcA, hcB, hcC, hcD, if_true, if_false, Bool.false_eq_true, aggregate_field, hvA, hvB]
    norm_num [List.lookup, minList, maxList, grand_total_of, zeroStat]
    all_goals decide

/-- C8: for a nonempty fetch whose Scotland filter comes back empty,
`get_capacity_data` falls back to aggregating the entire input frame, so the
summary it returns is built from the full record set. -/
theorem C8_empty_filter_fallback (df : List Record) (file : SnapshotFile)
    (hne : df ≠ []) (hemp : filter_scotland_data df = []) :
    get_capacity_data df file = .ok (build_cache_data df) := by
  simp [get_capacity_data, hne, hemp]

/-- C8 witness: a one-record frame with no location data is emptied by the
filter, and `get_capacity_data` aggregates the full frame instead. -/
theorem C8_witness :
    ([[("foo", Value.num 1)]] : List Record) ≠ []
  ∧ filter_scotland_data [[("foo", Value.num 1)]] = []
  ∧ get_capacity_data [[("foo", Value.num 1)]] SnapshotFile.missing
      = .ok (build_cache_data [[("foo", Value.num 1)]]) :=
  ⟨by decide, by decide,
    C8_empty_filter_fallback [[("foo", Value.num 1)]] SnapshotFile.missing
      (by decide) (by decide)⟩

/-- C10: the synthesized all-zero summary has connected capacity 0; for any
summary whose connected capacity is 0 `calculate_blackout` raises
ZeroDivisionError on every request, and for any summary whose connected
capacity is strictly positive every request returns a result. -/
theorem C10_blackout_division (k : Rat) (d : CacheData) :
    zero_cache_data.summary.connected_capacity = 0
  ∧ (d.summary.connected_capacity = 0 →
      calculate_blackout k d = .error .zeroDivisionError)
  ∧ (0 < d.summary.connected_capacity →
      ∃ res, calculate_blackout k d = .ok res) := by
  refine ⟨rfl, fun h0 => ?_, fun hpos => ?_⟩
  · simp [calculate_blackout, pydiv, h0, Bind.bind, Except.bind]
  · have h0 : d.summary.connected_capacity ≠ 0 := ne_of_gt hpos
    simp only [calculate_blackout, pydiv, h0, Bind.bind, Except.bind,
      if_false, ite_false, show ((1000 : Rat) = 0) = False by norm_num,
      show ((3 : Rat) = 0) = False by norm_num]
    exact ⟨_, rfl⟩

/-- C10 witness: a request of 5 kettles raises ZeroDivisionError against the
synthesized all-zero summary and succeeds against a summary with connected
capacity 10. -/
theorem C10_witness :
    calculate_blackout 5 zero_cache_data = .error .zeroDivisionError
  ∧ (∃ res, calculate_blackout 5
      { totals := []
      , records_count := 0
      , summary := { accepted_capacity := 0, connected_capacity := 10
                   , max_export_capacity := 0, max_import_capacity := 0
                   , grand_total := 10 } } = .ok res) :=
  ⟨(C10_blackout_division 5 zero_cache_data).2.1 rfl,
   (C10_blackout_division 5
      { totals := []
      , records_count := 0
      , summary := { accepted_capacity := 0, connected_capacity := 10
                   , max_export_capacity := 0, max_import_capacity := 0
                   , grand_total := 10 } }).2.2 (by norm_num)⟩

/-! ## Lemmas about the fetch merge -/

theorem mergeNew_nil (acc : List Record) : mergeNew acc [] = acc := rfl

theorem mergeNew_cons (acc : List Record) (x : Record) (xs : List Record) :
    mergeNew acc (x :: xs) = mergeNew (if x ∈ acc then acc else acc ++ [x]) xs := rfl

theorem count_step_le (r x : Record) (acc : List Record)
    (h : List.count r acc ≤ 1) :
    List.count r (if x ∈ acc then acc else acc ++ [x]) ≤ 1 := by
  by_cases hx : x ∈ acc
  · simpa [hx]
  · rw [if_neg hx, List.count_append]
    by_cases hrx : r = x
    · subst hrx
      have hz : List.count r acc = 0 := List.count_eq_zero.mpr hx
      simp [hz]
    · simp [List.count_cons, hrx, h]

theorem count_mergeNew_le (r : Record) (recs : List Record) :
    ∀ acc, List.count r acc ≤ 1 → List.count r (mergeNew acc recs) ≤ 1 := by
  induction recs with
  | nil => intro acc h; simpa [mergeNew_nil]
  | cons x xs ih =>
    intro acc h
    rw [mergeNew_cons]
    exact ih _ (count_step_le r x acc h)

theorem mem_mergeNew_left (r : Record) (recs : List Record) :
    ∀ acc, r ∈ acc → r ∈ mergeNew acc recs := by
  induction recs with
  | nil => intro acc h; simpa [mergeNew_nil]
  | cons x xs ih =>
    intro acc h
    rw [mergeNew_cons]
    apply ih
    by_cases hx : x ∈ acc
    · simpa [hx]
    · rw [if_neg hx]; exact List.mem_append_left _ h

theorem mem_mergeNew_right (r : Record) :
    ∀ (recs : List Record), r ∈ recs → ∀ acc, r ∈ mergeNew acc recs := by
  intro recs
  induction recs with
  | nil => intro h; cases h
  | cons x xs ih =>
    intro h acc
    rw [mergeNew_cons]
    rcases List.mem_cons.mp h with h | h
    · subst h
      apply mem_mergeNew_left
      by_cases hx : r ∈ acc
      · simp [hx]
      · rw [if_neg hx]
        exact List.mem_append_right _ (List.mem_singleton.mpr rfl)
    · exact ih h _

theorem count_fetchFold_le (r : Record) (outs : List QueryOutcome) :
    ∀ acc, List.count r acc ≤ 1 →
      List.count r (outs.foldl (fun a o => mergeNew a (outcomeRecords o)) acc) ≤ 1 := by
  induction outs with
  | nil => intro acc h; simpa
  | cons o os ih =>
    intro acc h
    rw [List.foldl_cons]
    exact ih _ (count_mergeNew_le r _ acc h)

theorem mem_fetchFold_left (r : Record) (outs : List QueryOutcome) :
    ∀ acc, r ∈ acc →
      r ∈ outs.foldl (fun a o => mergeNew a (outcomeRecords o)) acc := by
  induction outs with
  | nil => intro acc h; simpa
  | cons o os ih =>
    intro acc h
    rw [List.foldl_cons]
    exact ih _ (mem_mergeNew_left r _ acc h)

theorem mem_fetchFold_of_term (r : Record) :
    ∀ (outs : List QueryOutcome), (∃ o ∈ outs, r ∈ outcomeRecords o) →
      ∀ acc, r ∈ outs.foldl (fun a o => mergeNew a (outcomeRecords o)) acc := by
  intro outs
  induction outs with
  | nil => rintro ⟨o, ho, _⟩; cases ho
  | cons o os ih =>
    rintro ⟨o', ho', hr⟩ acc
    rw [List.foldl_cons]
    rcases List.mem_cons.mp ho' with h | h
    · subst h
      exact mem_fetchFold_left r os _ (mem_mergeNew_right r _ hr acc)
    · exact ih ⟨o', h, hr⟩ _

/-- C3: a record contributed by two different term queries (and not listed
more than once in the general sample) appears exactly once in the working
set returned by `fetch_scotland_data` — the per-term merge skips records
already present, compared by full structural equality. -/
theorem C3_no_duplicates (general : QueryOutcome) (termOuts : List QueryOutcome)
    (r : Record) (i j : Fin termOuts.length)
    (hgen : List.count r (outcomeRecords general) ≤ 1)
    (_hij : i ≠ j)
    (hi : r ∈ outcomeRecords (termOuts.get i))
    (_hj : r ∈ outcomeRecords (termOuts.get j)) :
    List.count r (fetch_scotland_data general termOuts) = 1 := by
  unfold fetch_scotland_data
  have hle := count_fetchFold_le r termOuts (outcomeRecords general) hgen
  have hmem := mem_fetchFold_of_term r termOuts
    ⟨termOuts.get i, List.get_mem termOuts i.1 i.2, hi⟩ (outcomeRecords general)
  have hpos := List.count_pos_iff.mpr hmem
  omega

/-- C3 witness: the same record returned by two successful term queries is
present exactly once in the merged working set. -/
theorem C3_witness :
    List.count [("Postcode", Value.str "EH1 1AA")]
      (fetch_scotland_data QueryOutcome.err
        [QueryOutcome.success [[("Postcode", Value.str "EH1 1AA")]],
         QueryOutcome.success [[("Postcode", Value.str "EH1 1AA")]]]) = 1 :=
  C3_no_duplicates QueryOutcome.err
    [QueryOutcome.success [[("Postcode", Value.str "EH1 1AA")]],
     QueryOutcome.success [[("Postcode", Value.str "EH1 1AA")]]]
    [("Postcode", Value.str "EH1 1AA")]
    ⟨0, by decide⟩ ⟨1, by decide⟩ (by decide) (by decide) (by decide) (by decide)

theorem mergeNew_eq_nil (recs : List Record) :
    ∀ acc, mergeNew acc recs = [] ↔ acc = [] ∧ recs = [] := by
  induction recs with
  | nil => intro acc; simp [mergeNew_nil]
  | cons x xs ih =>
    intro acc
    rw [mergeNew_cons, ih]
    have hstep : (if x ∈ acc then acc else acc ++ [x]) ≠ [] := by
      by_cases hx : x ∈ acc
      · rw [if_pos hx]; exact List.ne_nil_of_mem hx
      · rw [if_neg hx]; simp
    simp [hstep]

theorem fetchFold_eq_nil (outs : List QueryOutcome) :
    ∀ acc, outs.foldl (fun a o => mergeNew a (outcomeRecords o)) acc = [] ↔
      acc = [] ∧ ∀ o ∈ outs, outcomeRecords o = [] := by
  induction outs with
  | nil => intro acc; simp
  | cons o os ih =>
    intro acc
    rw [List.foldl_cons, ih, mergeNew_eq_nil]
    simp only [List.mem_cons]
    constructor
    · rintro ⟨⟨ha, ho⟩, hrest⟩
      exact ⟨ha, fun o' ho' => by
        rcases ho' with h | h
        · exact h ▸ ho
        · exact hrest o' h⟩
    · rintro ⟨ha, hall⟩
      exact ⟨⟨ha, hall o (Or.inl rfl)⟩, fun o' h => hall o' (Or.inr h)⟩

/-- C7: a failed or empty query contributes nothing and the fetch continues
with the remaining queries — removing an erroring query from the sequence
leaves the working set unchanged — and the fetch comes back empty exactly
when the general sample and every term query contributed no records. -/
theorem C7_failure_policy :
    (∀ (general : QueryOutcome) (termOuts : List QueryOutcome),
      fetch_scotland_data general termOuts = [] ↔
        outcomeRecords general = [] ∧ ∀ o ∈ termOuts, outcomeRecords o = [])
  ∧ (∀ (general : QueryOutcome) (pre post : List QueryOutcome),
      fetch_scotland_data general (pre ++ QueryOutcome.err :: post)
        = fetch_scotland_data general (pre ++ post)) := by
  constructor
  · intro general termOuts
    unfold fetch_scotland_data
    exact fetchFold_eq_nil termOuts (outcomeRecords general)
  · intro general pre post
    unfold fetch_scotland_data
    rw [List.foldl_append, List.foldl_append, List.foldl_cons]
    rfl

/-! ## Lemmas about the pagination fallback -/

theorem fetch_all_loop_trips (server : Nat → QueryOutcome) (limit : Nat) :
    ∀ (n : Nat) (acc : List Record) (offset trips : Nat), limit - acc.length ≤ n →
      (fetch_all_loop server limit acc offset trips).2
        ≤ trips + (limit - acc.length + (batch_size - 1)) / batch_size + 1 := by
  intro n
  induction n with
  | zero =>
    intro acc offset trips hn
    rw [fetch_all_loop]
    rw [dif_neg (by omega)]
    simp only [batch_size]
    omega
  | succ n ih =>
    intro acc offset trips hn
    rw [fetch_all_loop]
    by_cases hlt : acc.length < limit
    · rw [dif_pos hlt]
      cases hsrv : server offset with
      | err =>
        simp only [batch_size]
        omega
      | fail =>
        simp only [batch_size]
        omega
      | success recs =>
        dsimp only
        by_cases hz : recs = []
        · rw [if_pos hz]
          simp only [batch_size]
          omega
        · rw [if_neg hz]
          by_cases hshort : recs.length < batch_size
          · rw [dif_pos hshort]
            simp only [batch_size]
            omega
          · rw [dif_neg hshort]
            have hb : batch_size ≤ recs.length := Nat.le_of_not_lt hshort
            have hrec := ih (acc ++ recs) (offset + batch_size) (trips + 1)
              (by simp only [List.length_append, batch_size] at *; omega)
            refine le_trans hrec ?_
            simp only [List.length_append, batch_size] at *
            omega
    · rw [dif_neg hlt]
      simp only [batch_size]
      omega

/-- C9 counterexample: no request of a fetch cycle passes a timeout — the
general-sample request, every per-term request and the pagination requests
all leave the `timeout` keyword unset, so the transport waits indefinitely
rather than enforcing a fixed ceiling. -/
theorem C9_counterexample :
    (fetch_requests 5000).all (fun rc => rc.timeout.isNone) = true
  ∧ (general_request 5000).timeout = none
  ∧ (paged_request 0).timeout = none := by
  exact ⟨rfl, rfl, rfl⟩

/-- C9 (amended): no remote request sets an explicit per-request timeout
(the transport default applies), while the number of round-trips per fetch
cycle is hard-capped: the term fetch issues exactly one general request plus
one per search term, and the offset pagination fallback performs at most
maxRecords / batchSize + 2 requests, stopping when maxRecords is reached or
a batch comes back short, empty, failed or erroring. -/
theorem C9_bounded_round_trips :
    (∀ limit, (fetch_requests limit).length = 1 + scottish_terms.length)
  ∧ (∀ (server : Nat → QueryOutcome) (limit : Nat),
      (fetch_all_data server limit).2 ≤ limit / batch_size + 2)
  ∧ (∀ limit, (fetch_requests limit).all (fun rc => rc.timeout.isNone) = true) := by
  refine ⟨fun limit => ?_, fun server limit => ?_, fun limit => rfl⟩
  · simp [fetch_requests]
    omega
  · have h := fetch_all_loop_trips server limit (limit - 0) [] 0 0 (by simp)
    unfold fetch_all_data
    simp only [List.length_nil, batch_size] at *
    omega
